import Mathlib

/-
  Shallow embedding of the stellar_Earn quest-submission core.

  Source files embedded:
    src/Contract/earn-quest/src/types.rs       (data model)
    src/Contract/earn-quest/src/submission.rs  (submission workflow)

  The `storage` and `errors` modules are referenced by submission.rs but are
  not present in the repository sources; they are modelled from the spec
  (sections 4.1, 4.2 and 7), as marked on each definition below.
-/

namespace StellarEarn

/-- Symbolic identifier (soroban `Symbol`), abstracted as a string. -/
abbrev Symbol := String

/-- Identity (soroban `Address`), abstracted as a string. -/
abbrev Address := String

/-- Fixed 32-byte value (soroban `BytesN<32>`): a list of bytes of length 32. -/
def BytesN32 := { l : List Nat // l.length = 32 }

instance : DecidableEq BytesN32 := fun a b =>
  decidable_of_iff (a.val = b.val) Subtype.val_inj

/-- Quest lifecycle status, from types.rs. -/
inductive QuestStatus
  | Active
  | Paused
  | Completed
  | Expired
deriving DecidableEq, Repr

/-- Submission lifecycle status, from types.rs. -/
inductive SubmissionStatus
  | Pending
  | Approved
  | Rejected
  | Paid
deriving DecidableEq, Repr

/-- Quest record, from types.rs.  `reward_amount` is i128 in the source and
`deadline` u64, `total_claims` u32; no arithmetic is performed on them in the
embedded code, so they are modelled as Int and Nat. -/
structure Quest where
  id : Symbol
  creator : Address
  reward_asset : Address
  reward_amount : Int
  verifier : Address
  deadline : Nat
  status : QuestStatus
  total_claims : Nat
deriving DecidableEq, Repr

/-- Submission record, from types.rs. -/
structure Submission where
  quest_id : Symbol
  submitter : Address
  proof_hash : BytesN32
  status : SubmissionStatus
  timestamp : Nat
deriving DecidableEq

/-- User statistics record, from types.rs.  Declared in the source; the
submission workflow never reads or writes it. -/
structure UserStats where
  address : Address
  total_xp : Nat
  level : Nat
  quests_completed : Nat
  badges : List Symbol
deriving DecidableEq

/-- Modelled from the spec: the error taxonomy of section 7.  `Unauthorized`
additionally appears in the source (submission.rs, the placeholder return of
`get_quest_submissions`); the `errors` module itself is not in the sources. -/
inductive Error
  | QuestNotFound
  | InvalidQuestStatus
  | QuestExpired
  | DuplicateSubmission
  | InvalidProofHash
  | AlreadyExists
  | NotFound
  | Unauthorized
deriving DecidableEq, Repr

deriving instance DecidableEq for Except

/-- Host environment: the single piece of it the embedded code consumes is the
logical clock `env.ledger().timestamp()` (u64), modelled as a Nat. -/
structure Env where
  timestamp : Nat
deriving DecidableEq

/-- Modelled from the spec: the record store behind the missing `storage`
module, holding Quest records by id, Submission records keyed by
(quest_id, submitter), the submissions-by-user index, and UserStats records. -/
structure Storage where
  quests : List (Symbol × Quest)
  submissions : List Submission
  userSubs : List (Address × List Symbol)
  userStats : List (Address × UserStats)
deriving DecidableEq

/-- Event emitted through `events::emit`; payload `(quest_id, submitter,
proof_hash)` under the topic symbol. -/
structure Event where
  topic : Symbol
  quest_id : Symbol
  submitter : Address
  proof_hash : BytesN32
deriving DecidableEq

/-- Full observable state: the record store plus the emitted-event trace. -/
structure State where
  store : Storage
  events : List Event
deriving DecidableEq

/-- First Quest record with the given id, if any. -/
def lookupQuest : List (Symbol × Quest) → Symbol → Option Quest
  | [], _ => none
  | (k, v) :: rest, q => if k = q then some v else lookupQuest rest q

/-- First Submission record with the given composite key, if any. -/
def find_submission : List Submission → Symbol → Address → Option Submission
  | [], _, _ => none
  | s :: rest, q, u =>
      if s.quest_id = q ∧ s.submitter = u then some s else find_submission rest q u

/-- Entry of the submissions-by-user index for the given user, if any. -/
def lookupUserSubs : List (Address × List Symbol) → Address → Option (List Symbol)
  | [], _ => none
  | (k, v) :: rest, u => if k = u then some v else lookupUserSubs rest u

/-- Append a quest id to the submissions-by-user index entry of a user,
creating the entry when absent (append-only, insertion order preserved). -/
def appendUserSub : List (Address × List Symbol) → Address → Symbol → List (Address × List Symbol)
  | [], u, q => [(u, [q])]
  | (k, v) :: rest, u, q =>
      if k = u then (k, v ++ [q]) :: rest else (k, v) :: appendUserSub rest u q

namespace storage

/-- Modelled from the spec: Quest Repository `get(quest_id)` (section 4.1),
failing with `QuestNotFound` when no record exists (error table, section 7). -/
def get_quest (s : Storage) (quest_id : Symbol) : Except Error Quest :=
  match lookupQuest s.quests quest_id with
  | some q => .ok q
  | none => .error .QuestNotFound

/-- Modelled from the spec: Submission Repository `exists(quest_id, submitter)`
(section 4.2), a point lookup with no side effects. -/
def submission_exists (s : Storage) (quest_id : Symbol) (submitter : Address) : Bool :=
  (find_submission s.submissions quest_id submitter).isSome

/-- Modelled from the spec: Submission Repository `get(quest_id, submitter)`
(section 4.2), failing with `NotFound` when absent. -/
def get_submission (s : Storage) (quest_id : Symbol) (submitter : Address) :
    Except Error Submission :=
  match find_submission s.submissions quest_id submitter with
  | some sub => .ok sub
  | none => .error .NotFound

/-- Modelled from the spec: Submission Repository `create` (section 4.2),
failing with `AlreadyExists` when the composite key is occupied, otherwise
appending the primary record.  The source calls `add_user_submission`
separately after it, so the user-index append is modelled there, not here;
no quest-side index is maintained anywhere in the source. -/
def store_submission (s : Storage) (sub : Submission) : Except Error Storage :=
  if (find_submission s.submissions sub.quest_id sub.submitter).isSome then
    .error .AlreadyExists
  else
    .ok { s with submissions := s.submissions ++ [sub] }

/-- Modelled from the spec: the append to the `submissions_by_user` index
(section 3), invoked by the source as `storage::add_user_submission`; the
spec gives it no failure condition, so it always succeeds. -/
def add_user_submission (s : Storage) (user : Address) (quest_id : Symbol) :
    Except Error Storage :=
  .ok { s with userSubs := appendUserSub s.userSubs user quest_id }

/-- Modelled from the spec: Submission Repository `list_by_user` (section 4.2),
returning the empty sequence (not an error) when no entry exists. -/
def get_user_submissions (s : Storage) (user : Address) : List Symbol :=
  match lookupUserSubs s.userSubs user with
  | some l => l
  | none => []

end storage

/-- The all-zero 32-byte digest: in the source a local of `submit_proof`,
built as `BytesN::from_array(env, &[0u8; 32])`; hoisted to top level so that
theorem statements can refer to it. -/
def zero_hash : BytesN32 := ⟨List.replicate 32 0, rfl⟩

/-- Translation of `submit_proof` from submission.rs: the guard sequence
(quest lookup, status, deadline, duplicate, zero proof hash), then record
construction, the two storage writes, and the event emission.  The trailing
`log!` has no observable effect and is not modelled. -/
def submit_proof (env : Env) (st : State) (quest_id : Symbol) (submitter : Address)
    (proof_hash : BytesN32) : Except Error Unit × State :=
  match storage.get_quest st.store quest_id with
  | .error e => (.error e, st)
  | .ok quest =>
    match quest.status with
    | .Active =>
      let current_timestamp := env.timestamp
      if current_timestamp > quest.deadline then
        (.error .QuestExpired, st)
      else if storage.submission_exists st.store quest_id submitter then
        (.error .DuplicateSubmission, st)
      else if proof_hash = zero_hash then
        (.error .InvalidProofHash, st)
      else
        let submission : Submission :=
          { quest_id := quest_id, submitter := submitter, proof_hash := proof_hash,
            status := .Pending, timestamp := current_timestamp }
        match storage.store_submission st.store submission with
        | .error e => (.error e, st)
        | .ok store1 =>
          match storage.add_user_submission store1 submitter quest_id with
          | .error e => (.error e, { st with store := store1 })
          | .ok store2 =>
            (.ok (), { store := store2,
                       events := st.events ++
                         [{ topic := "proof_submitted", quest_id := quest_id,
                            submitter := submitter, proof_hash := proof_hash }] })
    | _ => (.error .InvalidQuestStatus, st)

/-- Translation of `get_submission` from submission.rs: delegates to the
storage layer. -/
def get_submission (st : State) (quest_id : Symbol) (submitter : Address) :
    Except Error Submission :=
  storage.get_submission st.store quest_id submitter

/-- Translation of `get_user_submissions` from submission.rs: delegates to the
storage layer. -/
def get_user_submissions (st : State) (user : Address) : List Symbol :=
  storage.get_user_submissions st.store user

/-- Translation of `get_quest_submissions` from submission.rs: the source body
builds an empty vector, then unconditionally returns
`Err(Error::Unauthorized)` (its own comment calls this a placeholder for a
missing quest-side index); the inputs are therefore unused. -/
def get_quest_submissions (_st : State) (_quest_id : Symbol) :
    Except Error (List Submission) :=
  .error .Unauthorized

/-- Concrete Active quest with deadline 1000 (Scenario A of the spec). -/
def quest1 : Quest :=
  { id := "q1", creator := "creator", reward_asset := "asset", reward_amount := 100,
    verifier := "vera", deadline := 1000, status := .Active, total_claims := 0 }

/-- Concrete Paused quest (Scenario D of the spec). -/
def quest2 : Quest :=
  { quest1 with id := "q2", status := .Paused }

/-- Concrete non-zero proof hash (32 bytes of 0xAA). -/
def hashAA : BytesN32 := ⟨List.replicate 32 170, rfl⟩

/-- Concrete non-zero proof hash (32 bytes of 0xBB). -/
def hashBB : BytesN32 := ⟨List.replicate 32 187, rfl⟩

/-- Concrete initial state holding quests q1 (Active) and q2 (Paused), with no
submissions, no index entries and no events. -/
def st0 : State :=
  { store := { quests := [("q1", quest1), ("q2", quest2)], submissions := [],
               userSubs := [], userStats := [] },
    events := [] }

/-- Environment with logical clock 500. -/
def env500 : Env := { timestamp := 500 }

/-- Environment with logical clock 1000, exactly the deadline of q1. -/
def env1000 : Env := { timestamp := 1000 }

/-- Environment with logical clock 1500, past the deadline of q1. -/
def env1500 : Env := { timestamp := 1500 }

/-- Concrete non-zero proof hash (32 bytes of 0xCC). -/
def hashCC : BytesN32 := ⟨List.replicate 32 204, rfl⟩

/-- State after the successful Scenario A call: alice submits to q1 at clock 500. -/
def st1 : State := (submit_proof env500 st0 "q1" "alice" hashAA).2


/-- Characterization of `submit_proof`: the guards fire in order, each failure
returns the corresponding error with the state unchanged, and when all guards
pass the primary record is appended, the user index is appended, and one event
is emitted.  In particular the repository-level `AlreadyExists` branch is
unreachable, because the duplicate guard has already checked the same key. -/
theorem submit_proof_characterization (env : Env) (st : State) (q : Symbol) (u : Address)
    (h : BytesN32) :
    submit_proof env st q u h =
      match lookupQuest st.store.quests q with
      | none => (.error .QuestNotFound, st)
      | some quest =>
        match quest.status with
        | .Active =>
          if env.timestamp > quest.deadline then
            (.error .QuestExpired, st)
          else if storage.submission_exists st.store q u then
            (.error .DuplicateSubmission, st)
          else if h = zero_hash then
            (.error .InvalidProofHash, st)
          else
            (.ok (),
              { store := { st.store with
                  submissions := st.store.submissions ++
                    [{ quest_id := q, submitter := u, proof_hash := h,
                       status := .Pending, timestamp := env.timestamp }],
                  userSubs := appendUserSub st.store.userSubs u q },
                events := st.events ++
                  [{ topic := "proof_submitted", quest_id := q, submitter := u,
                     proof_hash := h }] })
        | .Paused => (.error .InvalidQuestStatus, st)
        | .Completed => (.error .InvalidQuestStatus, st)
        | .Expired => (.error .InvalidQuestStatus, st) := by
  unfold submit_proof storage.get_quest
  cases hlk : lookupQuest st.store.quests q with
  | none => rfl
  | some quest =>
    cases hstat : quest.status with
    | Active =>
      by_cases hdl : env.timestamp > quest.deadline
      · simp [hdl, hstat]
      · cases hex : storage.submission_exists st.store q u with
        | true => simp [hdl, hex, hstat]
        | false =>
          by_cases hzh : h = zero_hash
          · simp [hdl, hex, hzh, hstat]
          · have hfind : find_submission st.store.submissions q u = none := by
              unfold storage.submission_exists at hex
              cases hf : find_submission st.store.submissions q u with
              | none => rfl
              | some s => rw [hf] at hex; simp at hex
            simp [hdl, hex, hzh, hstat, storage.store_submission,
              storage.add_user_submission, hfind]
    | Paused => simp [hstat]
    | Completed => simp [hstat]
    | Expired => simp [hstat]



/-- Searching a concatenation when the first part has no match continues in
the second part. -/
theorem find_submission_append_none {l1 l2 : List Submission} {q : Symbol} {u : Address}
    (h1 : find_submission l1 q u = none) :
    find_submission (l1 ++ l2) q u = find_submission l2 q u := by
  induction l1 with
  | nil => rfl
  | cons s rest ih =>
    rw [List.cons_append]
    by_cases hm : s.quest_id = q ∧ s.submitter = u
    · simp [find_submission, hm] at h1
    · simp [find_submission, hm] at h1 ⊢
      exact ih h1

/-- Every call of `submit_proof` either leaves the state unchanged or
returns success. -/
theorem submit_proof_frame_or_ok (env : Env) (st : State) (q : Symbol) (u : Address)
    (h : BytesN32) :
    (submit_proof env st q u h).2 = st ∨ (submit_proof env st q u h).1 = .ok () := by
  rw [submit_proof_characterization]
  cases hlk : lookupQuest st.store.quests q with
  | none => left; rfl
  | some quest =>
    cases hstat : quest.status with
    | Active =>
      by_cases hdl : env.timestamp > quest.deadline
      · left; simp [hstat, hdl]
      · cases hex : storage.submission_exists st.store q u with
        | true => left; simp [hstat, hdl, hex]
        | false =>
          by_cases hzh : h = zero_hash
          · left; simp [hstat, hdl, hex, hzh]
          · right; simp [hstat, hdl, hex, hzh]
    | Paused => left; simp [hstat]
    | Completed => left; simp [hstat]
    | Expired => left; simp [hstat]

/-- C1: submit_proof evaluates its guards in order, short-circuiting on the
first failure, so the returned error is the one of the earliest failing guard:
QuestNotFound is returned exactly when the quest lookup fails;
InvalidQuestStatus exactly when the quest exists but is not Active;
QuestExpired exactly when the quest exists, is Active, and the clock is past
the deadline; DuplicateSubmission exactly when all earlier guards pass and a
submission for the pair already exists; InvalidProofHash exactly when all
earlier guards pass and the proof hash is the all-zero digest. -/
theorem C1_guard_order (env : Env) (st : State) (q : Symbol) (u : Address) (h : BytesN32) :
    ((submit_proof env st q u h).1 = .error .QuestNotFound ↔
        lookupQuest st.store.quests q = none)
    ∧ ((submit_proof env st q u h).1 = .error .InvalidQuestStatus ↔
        ∃ quest, lookupQuest st.store.quests q = some quest ∧ quest.status ≠ .Active)
    ∧ ((submit_proof env st q u h).1 = .error .QuestExpired ↔
        ∃ quest, lookupQuest st.store.quests q = some quest ∧ quest.status = .Active ∧
          env.timestamp > quest.deadline)
    ∧ ((submit_proof env st q u h).1 = .error .DuplicateSubmission ↔
        ∃ quest, lookupQuest st.store.quests q = some quest ∧ quest.status = .Active ∧
          env.timestamp ≤ quest.deadline ∧ storage.submission_exists st.store q u = true)
    ∧ ((submit_proof env st q u h).1 = .error .InvalidProofHash ↔
        ∃ quest, lookupQuest st.store.quests q = some quest ∧ quest.status = .Active ∧
          env.timestamp ≤ quest.deadline ∧ storage.submission_exists st.store q u = false ∧
          h = zero_hash) := by
  rw [submit_proof_characterization]
  cases hlk : lookupQuest st.store.quests q with
  | none => simp
  | some quest =>
    cases hstat : quest.status with
    | Active =>
      by_cases hdl : env.timestamp > quest.deadline
      · have hdl2 : ¬env.timestamp ≤ quest.deadline := Nat.not_le.mpr hdl
        simp [hdl, hdl2, hstat]
      · have hdl2 : env.timestamp ≤ quest.deadline := Nat.le_of_not_lt hdl
        cases hex : storage.submission_exists st.store q u with
        | true => simp [hdl, hdl2, hex, hstat]
        | false =>
          by_cases hzh : h = zero_hash
          · simp [hdl, hdl2, hex, hzh, hstat]
          · simp [hdl, hdl2, hex, hzh, hstat]
    | Paused => simp [hstat]
    | Completed => simp [hstat]
    | Expired => simp [hstat]


/-- C5: whenever any guard of submit_proof fails, the call returns that error
and produces no side effect: no submission record is created, no index entry
is appended, and no event is emitted — the post state equals the pre state. -/
theorem C5_error_no_side_effects (env : Env) (st : State) (q : Symbol) (u : Address)
    (h : BytesN32) (e : Error) (he : (submit_proof env st q u h).1 = .error e) :
    (submit_proof env st q u h).2 = st := by
  rcases submit_proof_frame_or_ok env st q u h with h2 | h2
  · exact h2
  · rw [h2] at he
    simp at he

/-- Witness for C5 at a concrete input: submitting to the unknown quest q9
fails with QuestNotFound and leaves the state exactly as it was. -/
theorem C5_error_no_side_effects_witness :
    (submit_proof env500 st0 "q9" "dave" hashAA).1 = .error .QuestNotFound
    ∧ (submit_proof env500 st0 "q9" "dave" hashAA).2 = st0 :=
  ⟨by decide, C5_error_no_side_effects env500 st0 "q9" "dave" hashAA .QuestNotFound (by decide)⟩

/-- C2: contrary to the claim, the get_quest_submissions of the source (the
list_quest_submissions of the spec) never returns a sequence of submissions: for every
state and every quest id — unknown quest included — it fails with
Unauthorized, the placeholder the source returns in place of a quest-side
enumeration. -/
theorem C2_get_quest_submissions_always_fails :
    ∀ (st : State) (q : Symbol), get_quest_submissions st q = .error .Unauthorized :=
  fun _ _ => rfl

/-- C3: the user-side index is consistent after a successful call (the
submission by alice to q1 is listed, in order), but the quest-side enumeration that the
claim also requires fails with Unauthorized instead of returning the
submitters, so the two-sided index-consistency claim fails on the source. -/
theorem C3_quest_side_index_missing :
    (submit_proof env500 st0 "q1" "alice" hashAA).1 = .ok ()
    ∧ get_user_submissions st1 "alice" = ["q1"]
    ∧ get_quest_submissions st1 "q1" = .error .Unauthorized :=
  ⟨by decide, by decide, rfl⟩


/-- Counterexample for C4: the claim that every subsequent call with the same
pair fails with DuplicateSubmission is false as stated.  After the
successful submission by alice to q1 (deadline 1000) at clock 500, a second call with
the identical pair at clock 1500 fails with QuestExpired, because the deadline
guard precedes the duplicate guard. -/
theorem C4_counterexample :
    (submit_proof env500 st0 "q1" "alice" hashAA).1 = .ok ()
    ∧ storage.submission_exists st1.store "q1" "alice" = true
    ∧ (submit_proof env1500 st1 "q1" "alice" hashAA).1 = .error .QuestExpired
    ∧ ¬((submit_proof env1500 st1 "q1" "alice" hashAA).1 = .error .DuplicateSubmission) :=
  ⟨by decide, by decide, by decide, by decide⟩

/-- C4 (amended): for every pair (quest_id, submitter) at most one submit_proof
call can ever succeed: a successful call makes a submission for the pair exist,
and once a submission exists every call with that pair fails and modifies no
record and no index; the error is DuplicateSubmission whenever the earlier
guards (quest lookup, status, deadline) pass. -/
theorem C4_at_most_one_submission (env : Env) (st : State) (q : Symbol) (u : Address)
    (h : BytesN32) :
    ((submit_proof env st q u h).1 = .ok () →
        storage.submission_exists (submit_proof env st q u h).2.store q u = true)
    ∧ (storage.submission_exists st.store q u = true →
        (submit_proof env st q u h).1 ≠ .ok ()
        ∧ (submit_proof env st q u h).2 = st
        ∧ ∀ quest, lookupQuest st.store.quests q = some quest →
            quest.status = QuestStatus.Active → env.timestamp ≤ quest.deadline →
            (submit_proof env st q u h).1 = .error .DuplicateSubmission) := by
  rw [submit_proof_characterization]
  cases hlk : lookupQuest st.store.quests q with
  | none =>
    refine ⟨fun hok => by simp at hok, fun hx => ⟨by simp, rfl, ?_⟩⟩
    intro quest2 hq
    simp at hq
  | some quest =>
    cases hstat : quest.status with
    | Active =>
      by_cases hdl : env.timestamp > quest.deadline
      · refine ⟨fun hok => by simp [hstat, hdl] at hok,
          fun hx => ⟨by simp [hstat, hdl], by simp [hstat, hdl], ?_⟩⟩
        intro quest2 hq hstat2 hdl2
        simp at hq
        subst hq
        exact absurd hdl2 (Nat.not_le.mpr hdl)
      · cases hex : storage.submission_exists st.store q u with
        | true =>
          refine ⟨fun hok => by simp [hstat, hdl] at hok,
            fun hx => ⟨by simp [hstat, hdl], by simp [hstat, hdl], ?_⟩⟩
          intro quest2 hq hstat2 hdl2
          simp [hstat, hdl]
        | false =>
          have hfind : find_submission st.store.submissions q u = none := by
            cases hf : find_submission st.store.submissions q u with
            | none => rfl
            | some s =>
              unfold storage.submission_exists at hex
              rw [hf] at hex
              simp at hex
          by_cases hzh : h = zero_hash
          · exact ⟨fun hok => by simp [hstat, hdl, hzh] at hok, fun hx => by simp at hx⟩
          · constructor
            · intro hok
              simp [hstat, hdl, hzh]
              unfold storage.submission_exists
              rw [find_submission_append_none hfind]
              simp [find_submission]
            · intro hx
              simp at hx
    | Paused =>
      refine ⟨fun hok => by simp [hstat] at hok, fun hx => ⟨by simp [hstat], by simp [hstat], ?_⟩⟩
      intro quest2 hq hstat2 hdl2
      simp at hq
      subst hq
      rw [hstat] at hstat2
      cases hstat2
    | Completed =>
      refine ⟨fun hok => by simp [hstat] at hok, fun hx => ⟨by simp [hstat], by simp [hstat], ?_⟩⟩
      intro quest2 hq hstat2 hdl2
      simp at hq
      subst hq
      rw [hstat] at hstat2
      cases hstat2
    | Expired =>
      refine ⟨fun hok => by simp [hstat] at hok, fun hx => ⟨by simp [hstat], by simp [hstat], ?_⟩⟩
      intro quest2 hq hstat2 hdl2
      simp at hq
      subst hq
      rw [hstat] at hstat2
      cases hstat2

/-- Witness for C4 at concrete inputs: the successful submission by alice to q1
makes the record exist, and a second call with the same pair at clock 600,
while q1 is still Active and unexpired, fails with DuplicateSubmission. -/
theorem C4_at_most_one_submission_witness :
    storage.submission_exists (submit_proof env500 st0 "q1" "alice" hashAA).2.store
      "q1" "alice" = true
    ∧ (submit_proof { timestamp := 600 } st1 "q1" "alice" hashBB).1 =
        .error .DuplicateSubmission :=
  ⟨(C4_at_most_one_submission env500 st0 "q1" "alice" hashAA).1 (by decide),
   (((C4_at_most_one_submission { timestamp := 600 } st1 "q1" "alice" hashBB).2
      (by decide)).2.2 quest1 (by decide) (by decide) (by decide))⟩


/-- On a successful call, the first match for the pair was absent beforehand
and the post state is exactly the pre state with the new Pending record
appended, the user index extended, and one event emitted. -/
theorem submit_proof_ok_state (env : Env) (st : State) (q : Symbol) (u : Address)
    (h : BytesN32) (hok : (submit_proof env st q u h).1 = .ok ()) :
    find_submission st.store.submissions q u = none
    ∧ h ≠ zero_hash
    ∧ (submit_proof env st q u h).2 =
      { store := { st.store with
          submissions := st.store.submissions ++
            [{ quest_id := q, submitter := u, proof_hash := h,
               status := .Pending, timestamp := env.timestamp }],
          userSubs := appendUserSub st.store.userSubs u q },
        events := st.events ++
          [{ topic := "proof_submitted", quest_id := q, submitter := u,
             proof_hash := h }] } := by
  cases hlk : lookupQuest st.store.quests q with
  | none =>
    rw [submit_proof_characterization, hlk] at hok
    simp at hok
  | some quest =>
    cases hstat : quest.status with
    | Active =>
      by_cases hdl : env.timestamp > quest.deadline
      · rw [submit_proof_characterization, hlk] at hok
        simp [hstat, hdl] at hok
      · cases hex : storage.submission_exists st.store q u with
        | true =>
          rw [submit_proof_characterization, hlk] at hok
          simp [hstat, hdl, hex] at hok
        | false =>
          have hfind : find_submission st.store.submissions q u = none := by
            cases hf : find_submission st.store.submissions q u with
            | none => rfl
            | some sub =>
              unfold storage.submission_exists at hex
              rw [hf] at hex
              simp at hex
          by_cases hzh : h = zero_hash
          · rw [submit_proof_characterization, hlk] at hok
            simp [hstat, hdl, hex, hzh] at hok
          · refine ⟨hfind, hzh, ?_⟩
            rw [submit_proof_characterization, hlk]
            simp [hstat, hdl, hex, hzh]
    | Paused =>
      rw [submit_proof_characterization, hlk] at hok
      simp [hstat] at hok
    | Completed =>
      rw [submit_proof_characterization, hlk] at hok
      simp [hstat] at hok
    | Expired =>
      rw [submit_proof_characterization, hlk] at hok
      simp [hstat] at hok

/-- C6: on a successful submit_proof call the stored submission for the pair
has status Pending and timestamp equal to the single logical-clock value of
the invocation — the same value the deadline check used. -/
theorem C6_stored_submission_pending_timestamp (env : Env) (st : State) (q : Symbol)
    (u : Address) (h : BytesN32) (hok : (submit_proof env st q u h).1 = .ok ()) :
    get_submission (submit_proof env st q u h).2 q u =
      .ok { quest_id := q, submitter := u, proof_hash := h,
            status := .Pending, timestamp := env.timestamp } := by
  obtain ⟨hfind, _, hstate⟩ := submit_proof_ok_state env st q u h hok
  rw [hstate]
  simp [get_submission, storage.get_submission, find_submission_append_none hfind,
    find_submission]

/-- Witness for C6 at the concrete Scenario A input: quest q1 with deadline
1000 and clock 500; the call succeeds and the stored submission has timestamp
500 and status Pending. -/
theorem C6_stored_submission_pending_timestamp_witness :
    (submit_proof env500 st0 "q1" "alice" hashAA).1 = .ok ()
    ∧ get_submission (submit_proof env500 st0 "q1" "alice" hashAA).2 "q1" "alice" =
        .ok { quest_id := "q1", submitter := "alice", proof_hash := hashAA,
              status := .Pending, timestamp := 500 } :=
  ⟨by decide,
   C6_stored_submission_pending_timestamp env500 st0 "q1" "alice" hashAA (by decide)⟩

/-- C7: for a quest that exists, is Active, and has no prior submission by the
caller, submit_proof fails with QuestExpired exactly when the clock is
strictly greater than the deadline; at clock equal to the deadline the call is
not rejected by this guard. -/
theorem C7_deadline_guard (env : Env) (st : State) (q : Symbol) (u : Address)
    (h : BytesN32) (quest : Quest)
    (hlk : lookupQuest st.store.quests q = some quest)
    (hstat : quest.status = QuestStatus.Active)
    (hex : storage.submission_exists st.store q u = false) :
    ((submit_proof env st q u h).1 = .error .QuestExpired ↔
        env.timestamp > quest.deadline)
    ∧ (env.timestamp = quest.deadline →
        (submit_proof env st q u h).1 ≠ .error .QuestExpired) := by
  have hiff : (submit_proof env st q u h).1 = .error .QuestExpired ↔
      env.timestamp > quest.deadline := by
    rw [submit_proof_characterization, hlk]
    by_cases hdl : env.timestamp > quest.deadline
    · simp [hstat, hdl]
    · by_cases hzh : h = zero_hash
      · simp [hstat, hdl, hex, hzh]
      · simp [hstat, hdl, hex, hzh]
  refine ⟨hiff, fun heq hqe => ?_⟩
  have := hiff.mp hqe
  omega

/-- Witness for C7 at concrete inputs: on quest q1 (deadline 1000, Active, no
prior submission by bob) the call at clock 1500 fails with QuestExpired and
the call at clock 1000 — exactly the deadline — is not rejected by the
deadline guard. -/
theorem C7_deadline_guard_witness :
    (submit_proof env1500 st0 "q1" "bob" hashBB).1 = .error .QuestExpired
    ∧ (submit_proof env1000 st0 "q1" "bob" hashBB).1 ≠ .error .QuestExpired :=
  ⟨(C7_deadline_guard env1500 st0 "q1" "bob" hashBB quest1 (by decide) (by decide)
      (by decide)).1.mpr (by decide),
   (C7_deadline_guard env1000 st0 "q1" "bob" hashBB quest1 (by decide) (by decide)
      (by decide)).2 (by decide)⟩

/-- C8: for a quest that exists and whose status is not Active — Paused,
Completed and Expired uniformly — submit_proof fails with InvalidQuestStatus
and changes nothing, regardless of clock, deadline, submitter or proof hash. -/
theorem C8_inactive_always_invalid_status (env : Env) (st : State) (q : Symbol)
    (u : Address) (h : BytesN32) (quest : Quest)
    (hlk : lookupQuest st.store.quests q = some quest)
    (hstat : quest.status ≠ QuestStatus.Active) :
    submit_proof env st q u h = (.error .InvalidQuestStatus, st) := by
  rw [submit_proof_characterization, hlk]
  cases hs : quest.status with
  | Active => exact absurd hs hstat
  | Paused => simp [hs]
  | Completed => simp [hs]
  | Expired => simp [hs]

/-- Witness for C8 at a concrete input: quest q2 is Paused, and the
submission by carol with a valid hash at the far-future clock 999999 fails with
InvalidQuestStatus, leaving the state unchanged. -/
theorem C8_inactive_always_invalid_status_witness :
    submit_proof { timestamp := 999999 } st0 "q2" "carol" hashCC =
      (.error .InvalidQuestStatus, st0) :=
  C8_inactive_always_invalid_status { timestamp := 999999 } st0 "q2" "carol" hashCC
    quest2 (by decide) (by decide)


/-- C9: when the quest exists, is Active, the clock is within the deadline and
no prior submission by the caller exists, a call whose proof hash is the
all-zero 32-byte digest fails with InvalidProofHash and changes nothing;
consequently a store in which no submission carries the all-zero hash never
acquires one through submit_proof. -/
theorem C9_zero_hash_rejected (env : Env) (st : State) (q : Symbol) (u : Address)
    (h : BytesN32) :
    (∀ quest, lookupQuest st.store.quests q = some quest →
        quest.status = QuestStatus.Active →
        env.timestamp ≤ quest.deadline →
        storage.submission_exists st.store q u = false →
        h = zero_hash →
        submit_proof env st q u h = (.error .InvalidProofHash, st))
    ∧ ((∀ sub ∈ st.store.submissions, sub.proof_hash ≠ zero_hash) →
        ∀ sub ∈ (submit_proof env st q u h).2.store.submissions,
          sub.proof_hash ≠ zero_hash) := by
  constructor
  · intro quest hlk hstat hdl hex hzh
    rw [submit_proof_characterization, hlk]
    have hdl2 : ¬env.timestamp > quest.deadline := Nat.not_lt.mpr hdl
    simp [hstat, hdl2, hex, hzh]
  · intro hall sub hsub
    rcases submit_proof_frame_or_ok env st q u h with h2 | h2
    · rw [h2] at hsub
      exact hall sub hsub
    · obtain ⟨hfind, hzh, hstate⟩ := submit_proof_ok_state env st q u h h2
      rw [hstate] at hsub
      simp at hsub
      rcases hsub with hmem | heq
      · exact hall sub hmem
      · rw [heq]
        simpa using hzh

/-- Witness for C9 at concrete inputs: the submission by erin to the Active,
unexpired quest q1 with the all-zero hash fails with InvalidProofHash, and
after the successful submission by alice the store still holds no all-zero hash. -/
theorem C9_zero_hash_rejected_witness :
    submit_proof env500 st0 "q1" "erin" zero_hash = (.error .InvalidProofHash, st0)
    ∧ (∀ sub ∈ (submit_proof env500 st0 "q1" "alice" hashAA).2.store.submissions,
        sub.proof_hash ≠ zero_hash) :=
  ⟨(C9_zero_hash_rejected env500 st0 "q1" "erin" zero_hash).1 quest1 (by decide)
      (by decide) (by decide) (by decide) rfl,
   (C9_zero_hash_rejected env500 st0 "q1" "alice" hashAA).2 (by simp [st0])⟩

/-- C10: every submit_proof call — successful or failing — leaves the quest
table unchanged, so every Quest record keeps its creator, reward_asset,
reward_amount, verifier, deadline, status and total_claims (in particular
total_claims is never incremented); the UserStats table is written through
unchanged and is never read: the outcome and every other state component are
the same for any two UserStats tables. -/
theorem C10_quest_and_userstats_frame (env : Env) (quests : List (Symbol × Quest))
    (subs : List Submission) (usubs : List (Address × List Symbol))
    (ustats ustats2 : List (Address × UserStats)) (evs : List Event)
    (q : Symbol) (u : Address) (h : BytesN32) :
    (submit_proof env ⟨⟨quests, subs, usubs, ustats⟩, evs⟩ q u h).2.store.quests = quests
    ∧ (submit_proof env ⟨⟨quests, subs, usubs, ustats⟩, evs⟩ q u h).2.store.userStats =
        ustats
    ∧ (submit_proof env ⟨⟨quests, subs, usubs, ustats2⟩, evs⟩ q u h).1 =
        (submit_proof env ⟨⟨quests, subs, usubs, ustats⟩, evs⟩ q u h).1
    ∧ (submit_proof env ⟨⟨quests, subs, usubs, ustats2⟩, evs⟩ q u h).2.store.submissions =
        (submit_proof env ⟨⟨quests, subs, usubs, ustats⟩, evs⟩ q u h).2.store.submissions
    ∧ (submit_proof env ⟨⟨quests, subs, usubs, ustats2⟩, evs⟩ q u h).2.store.userSubs =
        (submit_proof env ⟨⟨quests, subs, usubs, ustats⟩, evs⟩ q u h).2.store.userSubs
    ∧ (submit_proof env ⟨⟨quests, subs, usubs, ustats2⟩, evs⟩ q u h).2.events =
        (submit_proof env ⟨⟨quests, subs, usubs, ustats⟩, evs⟩ q u h).2.events
    ∧ (submit_proof env ⟨⟨quests, subs, usubs, ustats2⟩, evs⟩ q u h).2.store.userStats =
        ustats2 := by
  rw [submit_proof_characterization env ⟨⟨quests, subs, usubs, ustats⟩, evs⟩ q u h,
    submit_proof_characterization env ⟨⟨quests, subs, usubs, ustats2⟩, evs⟩ q u h]
  cases hlk : lookupQuest quests q with
  | none => simp
  | some quest =>
    cases hstat : quest.status with
    | Active =>
      by_cases hdl : env.timestamp > quest.deadline
      · simp [hstat, hdl]
      · cases hf : find_submission subs q u with
        | some sub => simp [hstat, hdl, storage.submission_exists, hf]
        | none =>
          by_cases hzh : h = zero_hash
          · simp [hstat, hdl, storage.submission_exists, hf, hzh]
          · simp [hstat, hdl, storage.submission_exists, hf, hzh]
    | Paused => simp [hstat]
    | Completed => simp [hstat]
    | Expired => simp [hstat]

end StellarEarn
